import Mathlib

set_option linter.unusedVariables false

/-! Shallow embedding of `xhyve.go` (package main of akatrevorjay/xhyve-1):
the VM bootstrap orchestrator `RunXHyve`, its parameter defaulting
`setDefaults`, and the classified error values.  The cgo backend calls are
modelled as a record `Backend` of pure result codes, and each run records,
besides its returned error, the ordered list of backend calls it makes. -/

/-- The classified error values of `xhyve.go`.  The first seven are declared
at `xhyve.go:17-34`; the last five (`ErrInitializingMSR`, `ErrInitializingPCI`,
`ErrBuildingMPTTable`, `ErrBuildingSMBIOS`, `ErrBuildingACPI`) are returned by
`RunXHyve` but their declarations are not among the given sources, so they are
modelled from the spec (section 4.3) as five further distinct named kinds,
giving the closed set of twelve. -/
inductive XhyveError where
  | ErrPCISlots
  | ErrLPCDevice
  | ErrInvalidMemsize
  | ErrInvalidBootParams
  | ErrCreatingVM
  | ErrMaxNumVCPUExceeded
  | ErrSettingUpMemory
  | ErrInitializingMSR
  | ErrInitializingPCI
  | ErrBuildingMPTTable
  | ErrBuildingSMBIOS
  | ErrBuildingACPI
deriving DecidableEq, Repr, Fintype

/-- Parameters of `XHyveParams` (`xhyve.go:36-56`).  The fields `BVMConsole`
and `MPTGen` are read by `RunXHyve` (`xhyve.go:142` and `xhyve.go:146`) but
their declarations are not among the given sources; they are modelled from the
spec (`enableBVMConsole` and `enableMPTables`, section 3). -/
structure XHyveParams where
  Nvcpus : Int
  Memory : String
  PCISlots : List String
  LPCDevs : List String
  ACPI : Bool
  UUID : String
  UTC : Bool
  BootParams : String
  BVMConsole : Bool
  MPTGen : Bool
deriving DecidableEq, Repr

/-- Decimal digit value of a character, as accepted by Go `strconv.Atoi`
in base 10. -/
def decDigit (c : Char) : Option Nat :=
  if 48 ≤ c.toNat ∧ c.toNat ≤ 57 then some (c.toNat - 48) else none

/-- Value of a run of decimal digits, most significant first, accumulator
style; fails on any non-digit. -/
def digitsValAux : List Char → Nat → Option Nat
  | [], acc => some acc
  | c :: rest, acc =>
    match decDigit c with
    | none => none
    | some d => digitsValAux rest (acc * 10 + d)

/-- Value of a nonempty all-digit string; `none` on the empty list or any
non-digit. -/
def digitsVal : List Char → Option Nat
  | [] => none
  | cs => digitsValAux cs 0

/-- Embedding of Go `strconv.Atoi` (base 10, 64-bit `int`): an optional
single sign followed by at least one decimal digit, rejected when the value
falls outside the 64-bit signed range (Go reports `ErrRange` there, and
`setDefaults` treats any non-nil error alike, so the model returns `none`). -/
def goAtoi (s : String) : Option Int :=
  match s.data with
  | '+' :: rest =>
    match digitsVal rest with
    | none => none
    | some n => if n ≤ 9223372036854775807 then some (n : Int) else none
  | '-' :: rest =>
    match digitsVal rest with
    | none => none
    | some n => if n ≤ 9223372036854775808 then some (-(n : Int)) else none
  | cs =>
    match digitsVal cs with
    | none => none
    | some n => if n ≤ 9223372036854775807 then some (n : Int) else none

/-- Hex digit character for a value below 16 (lower case, as in UUID
string form). -/
def hexChar (n : Nat) : Char :=
  if n < 10 then Char.ofNat (48 + n) else Char.ofNat (87 + n)

/-- `k` hex digits of `n`, most significant first. -/
def hexN : Nat → Nat → List Char
  | 0, _ => []
  | k + 1, n => hexChar (n / 16 ^ k % 16) :: hexN k n

/-- Modelled from the spec: the UUID generator `uuid.NewV4().String()` of
the external satori/go.uuid library (not under the given sources).  Per the
spec (section 3, `instanceID`) it yields a freshly generated, syntactically
valid unique identifier; it is modelled as the standard 8-4-4-4-12 hyphenated
hex rendering of a seed, which is in particular always a nonempty string. -/
def uuidV4String (seed : Nat) : String :=
  String.mk (hexN 8 (seed / 2 ^ 96) ++ '-' ::
    (hexN 4 (seed / 2 ^ 80) ++ '-' ::
      ('4' :: hexN 3 (seed / 2 ^ 68) ++ '-' ::
        (hexN 4 (seed / 2 ^ 52) ++ '-' :: hexN 12 seed))))

/-- `xhyve.go:59-61`: `if p.Nvcpus < 1 { p.Nvcpus = 1 }`. -/
def defaultNvcpus (p : XHyveParams) : XHyveParams :=
  if p.Nvcpus < 1 then { p with Nvcpus := 1 } else p

/-- `xhyve.go:63-66`: `memsize, err := strconv.Atoi(p.Memory);
if memsize < 256 || err != nil { p.Memory = "256" }` (on a non-nil error the
branch is taken whatever value accompanied the error, so the error case maps
straight to the replacement). -/
def defaultMemory (p : XHyveParams) : XHyveParams :=
  match goAtoi p.Memory with
  | none => { p with Memory := "256" }
  | some v => if v < 256 then { p with Memory := "256" } else p

/-- `xhyve.go:68-74`: default PCI slot topology when the list is empty. -/
def defaultPCISlots (p : XHyveParams) : XHyveParams :=
  if p.PCISlots = [] then
    { p with PCISlots := ["2:0,virtio-net", "0:0,hostbridge", "31,lpc"] }
  else p

/-- `xhyve.go:76-81`: default LPC device list when the list is empty. -/
def defaultLPCDevs (p : XHyveParams) : XHyveParams :=
  if p.LPCDevs = [] then { p with LPCDevs := ["com1", "stdio"] } else p

/-- `xhyve.go:83-85`: generate a UUID when the field is empty.  The fresh
value of `uuid.NewV4()` is supplied as the explicit `seed`. -/
def defaultUUID (seed : Nat) (p : XHyveParams) : XHyveParams :=
  if p.UUID = "" then { p with UUID := uuidV4String seed } else p

/-- `setDefaults` (`xhyve.go:58-86`): the four guarded field replacements and
the UUID generation, in source order. -/
def setDefaults (seed : Nat) (p : XHyveParams) : XHyveParams :=
  defaultUUID seed (defaultLPCDevs (defaultPCISlots (defaultMemory (defaultNvcpus p))))

/-- The Hypervisor Backend (the cgo calls of `helper.h`), modelled as a record
of pure results: each fallible call yields its C return code (0 = success),
`parse_memsize` additionally yields the value written through its out
parameter, and `num_vcpus_allowed` yields the reported limit.  The void calls
(`init_mem`, `rtc_init`, …) carry no data and appear only in the call trace. -/
structure Backend where
  pci_parse_slot : String → Int
  lpc_device_parse : String → Int
  parse_memsize : String → Int × Nat
  firmware_parse : String → Int
  xh_vm_create : Int
  num_vcpus_allowed : Int
  xh_vm_setup_memory : Nat → Int
  init_msr : Int
  init_pci : Int
  mptable_build : Int → Int
  smbios_build : Int
  acpi_build : Int → Int

/-- One backend call made by `RunXHyve`, with the argument it passes where
the argument matters to the spec. -/
inductive Call where
  | pciParseSlot (s : String)
  | lpcDeviceParse (s : String)
  | parseMemsize (s : String)
  | firmwareParse (s : String)
  | vmCreate
  | numVcpusAllowed
  | vmSetupMemory (memsize : Nat)
  | initMsr
  | initMem
  | initInout
  | pciIrqInit
  | ioapicInit
  | rtcInit (arg : Int)
  | sciInit
  | initPci
  | initBvmcons
  | mptableBuild (n : Int)
  | smbiosBuild
  | acpiBuild (n : Int)
  | vcpuAdd
  | meventDispatch
deriving DecidableEq, Repr

/-- Outcome of one pipeline step (or of a run): the classified error if it
failed, and the backend calls it made, in order. -/
abbrev StageResult := Option XhyveError × List Call

/-- The PCI slot loop (`xhyve.go:92-96`): call `pci_parse_slot` on each slot
in order, stopping at (and recording) the first failing call. -/
def pciLoop (b : Backend) : List String → Bool × List Call
  | [] => (true, [])
  | s :: rest =>
    if b.pci_parse_slot s ≠ 0 then (false, [Call.pciParseSlot s])
    else ((pciLoop b rest).1, Call.pciParseSlot s :: (pciLoop b rest).2)

/-- The LPC device loop (`xhyve.go:98-102`), like `pciLoop`. -/
def lpcLoop (b : Backend) : List String → Bool × List Call
  | [] => (true, [])
  | l :: rest =>
    if b.lpc_device_parse l ≠ 0 then (false, [Call.lpcDeviceParse l])
    else ((lpcLoop b rest).1, Call.lpcDeviceParse l :: (lpcLoop b rest).2)

/-- Stage 1, `xhyve.go:92-96`: PCI slot registration. -/
def pciStage (b : Backend) (slots : List String) : StageResult :=
  (if (pciLoop b slots).1 then none else some XhyveError.ErrPCISlots,
   (pciLoop b slots).2)

/-- Stage 2, `xhyve.go:98-102`: LPC device registration. -/
def lpcStage (b : Backend) (devs : List String) : StageResult :=
  (if (lpcLoop b devs).1 then none else some XhyveError.ErrLPCDevice,
   (lpcLoop b devs).2)

/-- Stage 3, `xhyve.go:104-107`: memory size resolution. -/
def memsizeStage (b : Backend) (m : String) : StageResult :=
  (if (b.parse_memsize m).1 ≠ 0 then some XhyveError.ErrInvalidMemsize else none,
   [Call.parseMemsize m])

/-- Stage 4, `xhyve.go:109-111`: boot specification resolution. -/
def firmwareStage (b : Backend) (bp : String) : StageResult :=
  (if b.firmware_parse bp ≠ 0 then some XhyveError.ErrInvalidBootParams else none,
   [Call.firmwareParse bp])

/-- Stage 5, `xhyve.go:113-115`: VM instance creation. -/
def createStage (b : Backend) : StageResult :=
  (if b.xh_vm_create ≠ 0 then some XhyveError.ErrCreatingVM else none, [Call.vmCreate])

/-- The cgo conversion `C.int(n)`: a Go `int` (64-bit) truncated, two's
complement, to a 32-bit C `int`.  Used at `xhyve.go:118`, `xhyve.go:147` and
`xhyve.go:157`. -/
def cInt (n : Int) : Int := (n + 2 ^ 31) % 2 ^ 32 - 2 ^ 31

/-- Stage 6, `xhyve.go:117-120`: query `num_vcpus_allowed` and fail when the
(defaulted) vCPU count exceeds it.  The comparison is
`C.int(p.Nvcpus) > maxVCPUs` (`xhyve.go:118`), so the count is truncated to a
32-bit C `int` before comparing. -/
def vcpuLimitStage (b : Backend) (nv : Int) : StageResult :=
  (if cInt nv > b.num_vcpus_allowed then some XhyveError.ErrMaxNumVCPUExceeded else none,
   [Call.numVcpusAllowed])

/-- Stage 7, `xhyve.go:122-124`: map the resolved memory size. -/
def setupMemoryStage (b : Backend) (ms : Nat) : StageResult :=
  (if b.xh_vm_setup_memory ms ≠ 0 then some XhyveError.ErrSettingUpMemory else none,
   [Call.vmSetupMemory ms])

/-- Stage 8 (fallible part), `xhyve.go:126-128`: MSR emulation setup. -/
def msrStage (b : Backend) : StageResult :=
  (if b.init_msr ≠ 0 then some XhyveError.ErrInitializingMSR else none, [Call.initMsr])

/-- Stage 8 (void part), `xhyve.go:130-136`: `init_mem`, `init_inout`,
`pci_irq_init`, `ioapic_init`, `rtc_init(0)`, `sci_init`.  Note the argument
of `rtc_init` is the constant 0 at `xhyve.go:135`. -/
def chipsetStage : StageResult :=
  (none, [Call.initMem, Call.initInout, Call.pciIrqInit, Call.ioapicInit,
          Call.rtcInit 0, Call.sciInit])

/-- Stage 9, `xhyve.go:138-140`: PCI bus initialization. -/
def pciInitStage (b : Backend) : StageResult :=
  (if b.init_pci ≠ 0 then some XhyveError.ErrInitializingPCI else none, [Call.initPci])

/-- Stage 10, `xhyve.go:142-144`: optional bootstrap console. -/
def bvmconsStage (flag : Bool) : StageResult :=
  (none, if flag then [Call.initBvmcons] else [])

/-- Stage 11, `xhyve.go:146-150`: optional MP table construction.  The call
is `C.mptable_build(C.int(p.Nvcpus))` (`xhyve.go:147`): its argument is the
32-bit truncation of the count. -/
def mptableStage (b : Backend) (flag : Bool) (nv : Int) : StageResult :=
  if flag then
    (if b.mptable_build (cInt nv) ≠ 0 then some XhyveError.ErrBuildingMPTTable else none,
     [Call.mptableBuild (cInt nv)])
  else (none, [])

/-- Stage 12, `xhyve.go:152-154`: SMBIOS table construction (unconditional). -/
def smbiosStage (b : Backend) : StageResult :=
  (if b.smbios_build ≠ 0 then some XhyveError.ErrBuildingSMBIOS else none,
   [Call.smbiosBuild])

/-- Stage 13, `xhyve.go:156-160`: optional ACPI table construction.  The call
is `C.acpi_build(C.int(p.Nvcpus))` (`xhyve.go:157`): its argument is the
32-bit truncation of the count. -/
def acpiStage (b : Backend) (flag : Bool) (nv : Int) : StageResult :=
  if flag then
    (if b.acpi_build (cInt nv) ≠ 0 then some XhyveError.ErrBuildingACPI else none,
     [Call.acpiBuild (cInt nv)])
  else (none, [])

/-- Stage 14, `xhyve.go:162-164`: primary vCPU creation (void). -/
def vcpuAddStage : StageResult := (none, [Call.vcpuAdd])

/-- Stage 15, `xhyve.go:166`: dispatch handoff. -/
def dispatchStage : StageResult := (none, [Call.meventDispatch])

/-- Sequencing of pipeline steps: stop at the first step that carries an
error, returning its calls only; otherwise accumulate calls and continue.
This is the early-return structure of `RunXHyve`'s body. -/
def runSeq : List StageResult → StageResult
  | [] => (none, [])
  | s :: rest =>
    match s.1 with
    | some e => (some e, s.2)
    | none => ((runSeq rest).1, s.2 ++ (runSeq rest).2)

/-- The pipeline of `RunXHyve` (`xhyve.go:92-168`) over the already-defaulted
parameters, each step paired with its spec stage number (section 4.2; the MSR
step and the void chipset steps are both part of stage 8). -/
def stagedSteps (b : Backend) (p : XHyveParams) : List (Nat × StageResult) :=
  [(1, pciStage b p.PCISlots),
   (2, lpcStage b p.LPCDevs),
   (3, memsizeStage b p.Memory),
   (4, firmwareStage b p.BootParams),
   (5, createStage b),
   (6, vcpuLimitStage b p.Nvcpus),
   (7, setupMemoryStage b (b.parse_memsize p.Memory).2),
   (8, msrStage b),
   (8, chipsetStage),
   (9, pciInitStage b),
   (10, bvmconsStage p.BVMConsole),
   (11, mptableStage b p.MPTGen p.Nvcpus),
   (12, smbiosStage b),
   (13, acpiStage b p.ACPI p.Nvcpus),
   (14, vcpuAddStage),
   (15, dispatchStage)]

/-- Outcome of a whole `RunXHyve` call: the returned error (`none` for the
`return nil` at `xhyve.go:168`), the ordered backend call trace, and the
callee's local `p` at exit (mutated in place by `setDefaults(&p)` at
`xhyve.go:90`). -/
structure RunOutcome where
  result : Option XhyveError
  trace : List Call
  finalParams : XHyveParams
deriving DecidableEq, Repr

/-- `RunXHyve` (`xhyve.go:89-169`): default the local copy of the parameters,
then run the fixed pipeline over it. -/
def RunXHyve (b : Backend) (seed : Nat) (p0 : XHyveParams) : RunOutcome :=
  let p := setDefaults seed p0
  let r := runSeq ((stagedSteps b p).map Prod.snd)
  ⟨r.1, r.2, p⟩

/-- Go passes `p` to `RunXHyve` by value (`func RunXHyve(p XHyveParams) error`,
`xhyve.go:89`): the callee receives an independent copy of the caller's struct
(field assignments inside `setDefaults(&p)` replace fields of that copy only,
including the slice headers of `PCISlots`/`LPCDevs`).  `bootCall` models one
whole Boot call as seen at the caller: the call's outcome together with the
caller's variable after the call returns. -/
def bootCall (b : Backend) (seed : Nat) (caller : XHyveParams) :
    RunOutcome × XHyveParams :=
  (RunXHyve b seed caller, caller)

/-- Spec stage number (section 4.2) of each backend call. -/
def stageOfCall : Call → Nat
  | Call.pciParseSlot _ => 1
  | Call.lpcDeviceParse _ => 2
  | Call.parseMemsize _ => 3
  | Call.firmwareParse _ => 4
  | Call.vmCreate => 5
  | Call.numVcpusAllowed => 6
  | Call.vmSetupMemory _ => 7
  | Call.initMsr => 8
  | Call.initMem => 8
  | Call.initInout => 8
  | Call.pciIrqInit => 8
  | Call.ioapicInit => 8
  | Call.rtcInit _ => 8
  | Call.sciInit => 8
  | Call.initPci => 9
  | Call.initBvmcons => 10
  | Call.mptableBuild _ => 11
  | Call.smbiosBuild => 12
  | Call.acpiBuild _ => 13
  | Call.vcpuAdd => 14
  | Call.meventDispatch => 15

/-- Spec stage number of the stage that returns each classified error. -/
def stageOfErr : XhyveError → Nat
  | XhyveError.ErrPCISlots => 1
  | XhyveError.ErrLPCDevice => 2
  | XhyveError.ErrInvalidMemsize => 3
  | XhyveError.ErrInvalidBootParams => 4
  | XhyveError.ErrCreatingVM => 5
  | XhyveError.ErrMaxNumVCPUExceeded => 6
  | XhyveError.ErrSettingUpMemory => 7
  | XhyveError.ErrInitializingMSR => 8
  | XhyveError.ErrInitializingPCI => 9
  | XhyveError.ErrBuildingMPTTable => 11
  | XhyveError.ErrBuildingSMBIOS => 12
  | XhyveError.ErrBuildingACPI => 13

/-- Whether a given backend call reports failure, for the backend `b` and
the (defaulted) vCPU count `nv`: the condition the source checks right after
making that call.  Calls with no failure path never fail. -/
def callFails (b : Backend) (nv : Int) : Call → Prop
  | Call.pciParseSlot s => b.pci_parse_slot s ≠ 0
  | Call.lpcDeviceParse s => b.lpc_device_parse s ≠ 0
  | Call.parseMemsize s => (b.parse_memsize s).1 ≠ 0
  | Call.firmwareParse s => b.firmware_parse s ≠ 0
  | Call.vmCreate => b.xh_vm_create ≠ 0
  | Call.numVcpusAllowed => cInt nv > b.num_vcpus_allowed
  | Call.vmSetupMemory m => b.xh_vm_setup_memory m ≠ 0
  | Call.initMsr => b.init_msr ≠ 0
  | Call.initPci => b.init_pci ≠ 0
  | Call.mptableBuild n => b.mptable_build n ≠ 0
  | Call.smbiosBuild => b.smbios_build ≠ 0
  | Call.acpiBuild n => b.acpi_build n ≠ 0
  | _ => False

/-- Modelled from the spec: the Hypervisor Backend's memory-size parser
(`parse_memsize` of the vendored C sources, not under the given sources).
Per section 4.2 stage 3 it parses the already-defaulted decimal size
expression into a concrete size, rejecting expressions it cannot parse;
modelled as acceptance of nonempty decimal numerals (the concrete byte-count
conversion is irrelevant to the claims and abstracted to the parsed value). -/
def parse_memsize_spec (s : String) : Option Nat :=
  digitsVal s.data

/-- Well-formedness of one staged step: its calls carry its stage number,
a failure outcome carries that stage's error and exhibits a failing call,
and a success outcome makes no failing call. -/
def stepOk (b : Backend) (nv : Int) (k : Nat) (s : StageResult) : Prop :=
  (∀ c ∈ s.2, stageOfCall c = k) ∧
  (∀ e, s.1 = some e → stageOfErr e = k ∧ ∃ c ∈ s.2, callFails b nv c) ∧
  (s.1 = none → ∀ c ∈ s.2, ¬ callFails b nv c)

/-- Result of a staged pipeline (first component of `runSeq`). -/
def seqRes (L : List (Nat × StageResult)) : Option XhyveError :=
  (runSeq (L.map Prod.snd)).1

/-- Call trace of a staged pipeline (second component of `runSeq`). -/
def seqTr (L : List (Nat × StageResult)) : List Call :=
  (runSeq (L.map Prod.snd)).2

/-- Whether a call is an `rtc_init` call. -/
def isRtcCall : Call → Bool
  | Call.rtcInit _ => true
  | _ => false

/-- Test double backend on which every call succeeds, reporting a vCPU limit
of 32 and a resolved memory size of 1024. -/
def bAllOk : Backend :=
  ⟨fun _ => 0, fun _ => 0, fun _ => (0, 1024), fun _ => 0, 0, 32, fun _ => 0, 0, 0,
   fun _ => 0, 0, fun _ => 0⟩

/-- Test double backend failing exactly at `init_msr`. -/
def bMsrFail : Backend :=
  ⟨fun _ => 0, fun _ => 0, fun _ => (0, 1024), fun _ => 0, 0, 32, fun _ => 0, -1, 0,
   fun _ => 0, 0, fun _ => 0⟩

/-- Test double backend failing exactly at `firmware_parse`. -/
def bFwFail : Backend :=
  ⟨fun _ => 0, fun _ => 0, fun _ => (0, 1024), fun _ => 1, 0, 32, fun _ => 0, 0, 0,
   fun _ => 0, 0, fun _ => 0⟩

/-- A fully explicit, already well-formed parameter set. -/
def pC1 : XHyveParams :=
  ⟨2, "1024", ["2:0,virtio-net"], ["com1", "stdio"], true, "vm-c1", false,
   "kexec,vmlinuz,initrd,console", false, true⟩

/-- The spec's stage-6 scenario: 999999 vCPUs requested against a limit of 32. -/
def pC2 : XHyveParams :=
  ⟨999999, "1024", ["2:0,virtio-net"], ["com1", "stdio"], true, "vm-c2", false,
   "kexec,vmlinuz,initrd,console", false, false⟩

/-- Parameters requesting the UTC clock policy (`UTC = true`). -/
def pC3 : XHyveParams :=
  ⟨1, "512", ["0:0,hostbridge"], ["com1", "stdio"], false, "vm-c3", true,
   "fbsd,userboot,vol,env", false, false⟩

/-- Parameters with a non-positive vCPU count. -/
def pC4a : XHyveParams :=
  ⟨0, "512", ["0:0,hostbridge"], ["com1"], false, "vm-c4", false, "boot", false, false⟩

/-- Parameters with a vCPU count of 4. -/
def pC4b : XHyveParams :=
  ⟨4, "512", ["0:0,hostbridge"], ["com1"], false, "vm-c4", false, "boot", false, false⟩

/-- Parameters with an unparseable (empty) memory spec. -/
def pC5a : XHyveParams :=
  ⟨1, "", ["0:0,hostbridge"], ["com1"], false, "vm-c5", false, "boot", false, false⟩

/-- Parameters with a memory spec parsing to 1024. -/
def pC5b : XHyveParams :=
  ⟨1, "1024", ["0:0,hostbridge"], ["com1"], false, "vm-c5", false, "boot", false, false⟩

/-- Parameters with empty PCI slot and LPC device lists. -/
def pC6 : XHyveParams :=
  ⟨1, "512", [], [], false, "vm-c6", false, "boot", false, false⟩

/-- A parameter set for exercising the error classifier. -/
def pC7 : XHyveParams :=
  ⟨1, "512", ["0:0,hostbridge"], ["com1"], false, "vm-c7", false, "boot", false, false⟩

/-- Valid parameters with both optional table flags off. -/
def pC8 : XHyveParams :=
  ⟨2, "1024", ["2:0,virtio-net"], ["com1", "stdio"], false, "vm-c8", false,
   "kexec,vmlinuz,initrd,console", false, false⟩

/-- Parameters requesting 2^31 vCPUs: `C.int(p.Nvcpus)` truncates this count
to -2^31.  Both table flags off. -/
def pBig : XHyveParams :=
  ⟨2147483648, "1024", ["2:0,virtio-net"], ["com1", "stdio"], false, "vm-big", false,
   "kexec,vmlinuz,initrd,console", false, false⟩

/-- Parameters requesting 2^31 vCPUs with both optional table flags on. -/
def pBigT : XHyveParams :=
  ⟨2147483648, "1024", ["2:0,virtio-net"], ["com1", "stdio"], true, "vm-bigt", false,
   "kexec,vmlinuz,initrd,console", false, true⟩

theorem pciLoop_calls (b : Backend) (l : List String) :
    ∀ c ∈ (pciLoop b l).2, ∃ s, c = Call.pciParseSlot s := by
  induction l with
  | nil => intro c hc; simp [pciLoop] at hc
  | cons s rest ih =>
    intro c hc
    simp only [pciLoop] at hc
    split at hc
    · rw [List.mem_singleton] at hc; exact ⟨s, hc⟩
    · rcases List.mem_cons.mp hc with h | h
      · exact ⟨s, h⟩
      · exact ih c h

theorem pciLoop_fail_call (b : Backend) (nv : Int) (l : List String)
    (h : (pciLoop b l).1 = false) :
    ∃ c ∈ (pciLoop b l).2, callFails b nv c := by
  induction l with
  | nil => simp [pciLoop] at h
  | cons s rest ih =>
    by_cases hf : b.pci_parse_slot s ≠ 0
    · exact ⟨Call.pciParseSlot s, by simp [pciLoop, hf], hf⟩
    · simp only [pciLoop, if_neg hf] at h ⊢
      obtain ⟨c, hc, hcf⟩ := ih h
      exact ⟨c, List.mem_cons_of_mem _ hc, hcf⟩

theorem pciLoop_ok_calls (b : Backend) (nv : Int) (l : List String)
    (h : (pciLoop b l).1 = true) :
    ∀ c ∈ (pciLoop b l).2, ¬ callFails b nv c := by
  induction l with
  | nil => intro c hc; simp [pciLoop] at hc
  | cons s rest ih =>
    by_cases hf : b.pci_parse_slot s ≠ 0
    · simp [pciLoop, hf] at h
    · simp only [pciLoop, if_neg hf] at h ⊢
      intro c hc
      rcases List.mem_cons.mp hc with rfl | h1
      · simpa [callFails] using hf
      · exact ih h c h1

theorem lpcLoop_calls (b : Backend) (l : List String) :
    ∀ c ∈ (lpcLoop b l).2, ∃ s, c = Call.lpcDeviceParse s := by
  induction l with
  | nil => intro c hc; simp [lpcLoop] at hc
  | cons s rest ih =>
    intro c hc
    simp only [lpcLoop] at hc
    split at hc
    · rw [List.mem_singleton] at hc; exact ⟨s, hc⟩
    · rcases List.mem_cons.mp hc with h | h
      · exact ⟨s, h⟩
      · exact ih c h

theorem lpcLoop_fail_call (b : Backend) (nv : Int) (l : List String)
    (h : (lpcLoop b l).1 = false) :
    ∃ c ∈ (lpcLoop b l).2, callFails b nv c := by
  induction l with
  | nil => simp [lpcLoop] at h
  | cons s rest ih =>
    by_cases hf : b.lpc_device_parse s ≠ 0
    · exact ⟨Call.lpcDeviceParse s, by simp [lpcLoop, hf], hf⟩
    · simp only [lpcLoop, if_neg hf] at h ⊢
      obtain ⟨c, hc, hcf⟩ := ih h
      exact ⟨c, List.mem_cons_of_mem _ hc, hcf⟩

theorem lpcLoop_ok_calls (b : Backend) (nv : Int) (l : List String)
    (h : (lpcLoop b l).1 = true) :
    ∀ c ∈ (lpcLoop b l).2, ¬ callFails b nv c := by
  induction l with
  | nil => intro c hc; simp [lpcLoop] at hc
  | cons s rest ih =>
    by_cases hf : b.lpc_device_parse s ≠ 0
    · simp [lpcLoop, hf] at h
    · simp only [lpcLoop, if_neg hf] at h ⊢
      intro c hc
      rcases List.mem_cons.mp hc with rfl | h1
      · simpa [callFails] using hf
      · exact ih h c h1

theorem stepOk_single (b : Backend) (nv : Int) (k : Nat) (c0 : Call) (e0 : XhyveError)
    (cond : Prop) [Decidable cond]
    (hst : stageOfCall c0 = k) (hse : stageOfErr e0 = k)
    (hcf : callFails b nv c0 ↔ cond) :
    stepOk b nv k (if cond then some e0 else none, [c0]) := by
  by_cases h : cond
  · refine ⟨?_, ?_, ?_⟩
    · intro c hc; rw [List.mem_singleton] at hc; subst hc; exact hst
    · intro e he
      have he2 : some e0 = some e := by simpa [h] using he
      cases he2
      exact ⟨hse, c0, List.mem_singleton_self _, hcf.mpr h⟩
    · intro hn
      have : (some e0 : Option XhyveError) = none := by simpa [h] using hn
      cases this
  · refine ⟨?_, ?_, ?_⟩
    · intro c hc; rw [List.mem_singleton] at hc; subst hc; exact hst
    · intro e he
      have : (none : Option XhyveError) = some e := by simpa [h] using he
      cases this
    · intro _ c hc
      rw [List.mem_singleton] at hc; subst hc
      exact fun hf => h (hcf.mp hf)

theorem stepOk_void (b : Backend) (nv : Int) (k : Nat) (cs : List Call)
    (hst : ∀ c ∈ cs, stageOfCall c = k) (hnf : ∀ c ∈ cs, ¬ callFails b nv c) :
    stepOk b nv k (none, cs) := by
  refine ⟨hst, ?_, fun _ => hnf⟩
  intro e he
  simp at he

theorem stepOk_pci (b : Backend) (nv : Int) (slots : List String) :
    stepOk b nv 1 (pciStage b slots) := by
  refine ⟨?_, ?_, ?_⟩
  · intro c hc
    obtain ⟨s, rfl⟩ := pciLoop_calls b slots c hc
    rfl
  · intro e he
    simp only [pciStage] at he
    split at he
    · cases he
    · cases he
      rename_i hf
      exact ⟨rfl, pciLoop_fail_call b nv slots (by simpa using hf)⟩
  · intro hn
    simp only [pciStage] at hn
    split at hn
    · rename_i ht
      exact pciLoop_ok_calls b nv slots (by simpa using ht)
    · cases hn

theorem stepOk_lpc (b : Backend) (nv : Int) (devs : List String) :
    stepOk b nv 2 (lpcStage b devs) := by
  refine ⟨?_, ?_, ?_⟩
  · intro c hc
    obtain ⟨s, rfl⟩ := lpcLoop_calls b devs c hc
    rfl
  · intro e he
    simp only [lpcStage] at he
    split at he
    · cases he
    · cases he
      rename_i hf
      exact ⟨rfl, lpcLoop_fail_call b nv devs (by simpa using hf)⟩
  · intro hn
    simp only [lpcStage] at hn
    split at hn
    · rename_i ht
      exact lpcLoop_ok_calls b nv devs (by simpa using ht)
    · cases hn

theorem stagedSteps_ok (b : Backend) (p : XHyveParams) :
    ∀ q ∈ stagedSteps b p, stepOk b p.Nvcpus q.1 q.2 := by
  intro q hq
  simp only [stagedSteps, List.mem_cons, List.not_mem_nil, or_false] at hq
  rcases hq with rfl | rfl | rfl | rfl | rfl | rfl | rfl | rfl | rfl | rfl | rfl | rfl |
    rfl | rfl | rfl | rfl
  · exact stepOk_pci b p.Nvcpus p.PCISlots
  · exact stepOk_lpc b p.Nvcpus p.LPCDevs
  · exact stepOk_single b p.Nvcpus 3 (Call.parseMemsize p.Memory)
      XhyveError.ErrInvalidMemsize ((b.parse_memsize p.Memory).1 ≠ 0) rfl rfl Iff.rfl
  · exact stepOk_single b p.Nvcpus 4 (Call.firmwareParse p.BootParams)
      XhyveError.ErrInvalidBootParams (b.firmware_parse p.BootParams ≠ 0) rfl rfl Iff.rfl
  · exact stepOk_single b p.Nvcpus 5 Call.vmCreate
      XhyveError.ErrCreatingVM (b.xh_vm_create ≠ 0) rfl rfl Iff.rfl
  · exact stepOk_single b p.Nvcpus 6 Call.numVcpusAllowed
      XhyveError.ErrMaxNumVCPUExceeded (cInt p.Nvcpus > b.num_vcpus_allowed) rfl rfl Iff.rfl
  · exact stepOk_single b p.Nvcpus 7 (Call.vmSetupMemory (b.parse_memsize p.Memory).2)
      XhyveError.ErrSettingUpMemory
      (b.xh_vm_setup_memory (b.parse_memsize p.Memory).2 ≠ 0) rfl rfl Iff.rfl
  · exact stepOk_single b p.Nvcpus 8 Call.initMsr
      XhyveError.ErrInitializingMSR (b.init_msr ≠ 0) rfl rfl Iff.rfl
  · exact stepOk_void b p.Nvcpus 8 _ (by decide) (by intro c hc; fin_cases hc <;> simp [callFails])
  · exact stepOk_single b p.Nvcpus 9 Call.initPci
      XhyveError.ErrInitializingPCI (b.init_pci ≠ 0) rfl rfl Iff.rfl
  · cases hf : p.BVMConsole
    · exact stepOk_void b p.Nvcpus 10 _ (by simp [bvmconsStage]) (by simp [bvmconsStage])
    · refine stepOk_void b p.Nvcpus 10 _ ?_ ?_ <;>
        · intro c hc
          simp only [bvmconsStage, if_pos trivial, List.mem_singleton] at hc
          subst hc
          simp [stageOfCall, callFails]
  · cases hf : p.MPTGen
    · exact stepOk_void b p.Nvcpus 11 _ (by simp [mptableStage]) (by simp [mptableStage])
    · show stepOk b p.Nvcpus 11 (mptableStage b true p.Nvcpus)
      exact stepOk_single b p.Nvcpus 11 (Call.mptableBuild (cInt p.Nvcpus))
        XhyveError.ErrBuildingMPTTable (b.mptable_build (cInt p.Nvcpus) ≠ 0) rfl rfl Iff.rfl
  · exact stepOk_single b p.Nvcpus 12 Call.smbiosBuild
      XhyveError.ErrBuildingSMBIOS (b.smbios_build ≠ 0) rfl rfl Iff.rfl
  · cases hf : p.ACPI
    · exact stepOk_void b p.Nvcpus 13 _ (by simp [acpiStage]) (by simp [acpiStage])
    · show stepOk b p.Nvcpus 13 (acpiStage b true p.Nvcpus)
      exact stepOk_single b p.Nvcpus 13 (Call.acpiBuild (cInt p.Nvcpus))
        XhyveError.ErrBuildingACPI (b.acpi_build (cInt p.Nvcpus) ≠ 0) rfl rfl Iff.rfl
  · exact stepOk_void b p.Nvcpus 14 _ (by decide) (by intro c hc; fin_cases hc <;> simp [callFails])
  · exact stepOk_void b p.Nvcpus 15 _ (by decide) (by intro c hc; fin_cases hc <;> simp [callFails])

theorem stagedSteps_pairwise (b : Backend) (p : XHyveParams) :
    List.Pairwise (fun q r => q.1 ≤ r.1) (stagedSteps b p) := by
  have h : List.Pairwise (fun a b => a ≤ b) ((stagedSteps b p).map Prod.fst) := by
    show List.Pairwise (fun a b => a ≤ b)
      [1, 2, 3, 4, 5, 6, 7, 8, 8, 9, 10, 11, 12, 13, 14, 15]
    decide
  exact List.pairwise_map.mp h


theorem seqRes_cons_some {k : Nat} {s : StageResult} {L : List (Nat × StageResult)}
    {e : XhyveError} (h : s.1 = some e) : seqRes ((k, s) :: L) = some e := by
  simp [seqRes, runSeq, h]

theorem seqTr_cons_some {k : Nat} {s : StageResult} {L : List (Nat × StageResult)}
    {e : XhyveError} (h : s.1 = some e) : seqTr ((k, s) :: L) = s.2 := by
  simp [seqTr, runSeq, h]

theorem seqRes_cons_none {k : Nat} {s : StageResult} {L : List (Nat × StageResult)}
    (h : s.1 = none) : seqRes ((k, s) :: L) = seqRes L := by
  simp [seqRes, runSeq, h]

theorem seqTr_cons_none {k : Nat} {s : StageResult} {L : List (Nat × StageResult)}
    (h : s.1 = none) : seqTr ((k, s) :: L) = s.2 ++ seqTr L := by
  simp [seqTr, runSeq, h]

/-- Soundness of the staged sequencing: over any stage-sorted list of
well-formed steps, (a) every traced call belongs to some listed step and
carries its stage; (b) a failing run pinpoints a failing stage: the returned
error's stage bounds every traced call, some traced call of exactly that stage
failed, and every strictly earlier stage succeeded with its calls traced;
(c) a successful run traces every step's calls and none of them failed. -/
theorem runSeqSound (b : Backend) (nv : Int) :
    ∀ L : List (Nat × StageResult),
      (∀ q ∈ L, stepOk b nv q.1 q.2) →
      List.Pairwise (fun q r => q.1 ≤ r.1) L →
      (∀ c ∈ seqTr L, ∃ q ∈ L, c ∈ q.2.2 ∧ stageOfCall c = q.1) ∧
      (∀ e, seqRes L = some e →
        (∃ q ∈ L, stageOfErr e = q.1) ∧
        (∀ c ∈ seqTr L, stageOfCall c ≤ stageOfErr e) ∧
        (∃ c ∈ seqTr L, stageOfCall c = stageOfErr e ∧ callFails b nv c) ∧
        (∀ q ∈ L, q.1 < stageOfErr e → q.2.1 = none ∧ ∀ c ∈ q.2.2, c ∈ seqTr L)) ∧
      (seqRes L = none →
        (∀ c ∈ seqTr L, ¬ callFails b nv c) ∧
        (∀ q ∈ L, q.2.1 = none ∧ ∀ c ∈ q.2.2, c ∈ seqTr L)) := by
  intro L
  induction L with
  | nil =>
    intro _ _
    refine ⟨?_, ?_, ?_⟩
    · intro c hc; simp [seqTr, runSeq] at hc
    · intro e he; simp [seqRes, runSeq] at he
    · intro _
      exact ⟨fun c hc => absurd hc (by simp [seqTr, runSeq]),
             fun q hq => absurd hq (by simp)⟩
  | cons hd tl ih =>
    intro hok hpw
    obtain ⟨k, s⟩ := hd
    have hs : stepOk b nv k s := hok _ (List.mem_cons_self _ _)
    have hok' : ∀ q ∈ tl, stepOk b nv q.1 q.2 :=
      fun q hq => hok q (List.mem_cons_of_mem _ hq)
    have hle : ∀ q ∈ tl, k ≤ q.1 := (List.pairwise_cons.mp hpw).1
    have hpw' := (List.pairwise_cons.mp hpw).2
    have IH := ih hok' hpw'
    cases hcase : s.1 with
    | some e0 =>
      have hres : seqRes ((k, s) :: tl) = some e0 := seqRes_cons_some hcase
      have htr : seqTr ((k, s) :: tl) = s.2 := seqTr_cons_some hcase
      obtain ⟨hek, c0, hc0, hc0f⟩ : stageOfErr e0 = k ∧ ∃ c ∈ s.2, callFails b nv c :=
        hs.2.1 e0 hcase
      refine ⟨?_, ?_, ?_⟩
      · intro c hc
        rw [htr] at hc
        exact ⟨(k, s), List.mem_cons_self _ _, hc, hs.1 c hc⟩
      · intro e he
        rw [hres] at he
        cases he
        refine ⟨⟨(k, s), List.mem_cons_self _ _, hek⟩, ?_, ?_, ?_⟩
        · intro c hc
          rw [htr] at hc
          exact le_of_eq ((hs.1 c hc).trans hek.symm)
        · exact ⟨c0, htr.symm ▸ hc0, (hs.1 c0 hc0).trans hek.symm, hc0f⟩
        · intro q hq hlt
          rcases List.mem_cons.mp hq with rfl | hmem
          · exact absurd hlt (by omega)
          · exact absurd hlt (by have := hle q hmem; omega)
      · intro hnone
        rw [hres] at hnone
        cases hnone
    | none =>
      have hres : seqRes ((k, s) :: tl) = seqRes tl := seqRes_cons_none hcase
      have htr : seqTr ((k, s) :: tl) = s.2 ++ seqTr tl := seqTr_cons_none hcase
      refine ⟨?_, ?_, ?_⟩
      · intro c hc
        rw [htr] at hc
        rcases List.mem_append.mp hc with h | h
        · exact ⟨(k, s), List.mem_cons_self _ _, h, hs.1 c h⟩
        · obtain ⟨q, hq, hcq, hst⟩ := IH.1 c h
          exact ⟨q, List.mem_cons_of_mem _ hq, hcq, hst⟩
      · intro e he
        rw [hres] at he
        obtain ⟨⟨q0, hq0, hq0st⟩, hbound, ⟨cf, hcf, hcfst, hcff⟩, hearly⟩ := IH.2.1 e he
        have hkle : k ≤ stageOfErr e := by rw [hq0st]; exact hle q0 hq0
        refine ⟨⟨q0, List.mem_cons_of_mem _ hq0, hq0st⟩, ?_, ?_, ?_⟩
        · intro c hc
          rw [htr] at hc
          rcases List.mem_append.mp hc with h | h
          · rw [hs.1 c h]; exact hkle
          · exact hbound c h
        · exact ⟨cf, htr.symm ▸ List.mem_append_right _ hcf, hcfst, hcff⟩
        · intro q hq hlt
          rcases List.mem_cons.mp hq with rfl | hmem
          · exact ⟨hcase, fun c hc => htr.symm ▸ List.mem_append_left _ hc⟩
          · obtain ⟨hqn, hsub⟩ := hearly q hmem hlt
            exact ⟨hqn, fun c hc => htr.symm ▸ List.mem_append_right _ (hsub c hc)⟩
      · intro hnone
        rw [hres] at hnone
        obtain ⟨hnf, hall⟩ := IH.2.2 hnone
        constructor
        · intro c hc
          rw [htr] at hc
          rcases List.mem_append.mp hc with h | h
          · exact hs.2.2 hcase c h
          · exact hnf c h
        · intro q hq
          rcases List.mem_cons.mp hq with rfl | hmem
          · exact ⟨hcase, fun c hc => htr.symm ▸ List.mem_append_left _ hc⟩
          · obtain ⟨hqn, hsub⟩ := hall q hmem
            exact ⟨hqn, fun c hc => htr.symm ▸ List.mem_append_right _ (hsub c hc)⟩

theorem defaultNvcpus_Nvcpus (p : XHyveParams) :
    (defaultNvcpus p).Nvcpus = if p.Nvcpus < 1 then 1 else p.Nvcpus := by
  unfold defaultNvcpus
  repeat' split
  all_goals rfl

theorem defaultNvcpus_Memory (p : XHyveParams) :
    (defaultNvcpus p).Memory = p.Memory := by
  unfold defaultNvcpus
  repeat' split
  all_goals rfl

theorem defaultNvcpus_PCISlots (p : XHyveParams) :
    (defaultNvcpus p).PCISlots = p.PCISlots := by
  unfold defaultNvcpus
  repeat' split
  all_goals rfl

theorem defaultNvcpus_LPCDevs (p : XHyveParams) :
    (defaultNvcpus p).LPCDevs = p.LPCDevs := by
  unfold defaultNvcpus
  repeat' split
  all_goals rfl

theorem defaultNvcpus_UUID (p : XHyveParams) :
    (defaultNvcpus p).UUID = p.UUID := by
  unfold defaultNvcpus
  repeat' split
  all_goals rfl

theorem defaultNvcpus_ACPI (p : XHyveParams) :
    (defaultNvcpus p).ACPI = p.ACPI := by
  unfold defaultNvcpus
  repeat' split
  all_goals rfl

theorem defaultNvcpus_MPTGen (p : XHyveParams) :
    (defaultNvcpus p).MPTGen = p.MPTGen := by
  unfold defaultNvcpus
  repeat' split
  all_goals rfl

theorem defaultMemory_Nvcpus (p : XHyveParams) :
    (defaultMemory p).Nvcpus = p.Nvcpus := by
  unfold defaultMemory
  repeat' split
  all_goals rfl

theorem defaultMemory_Memory (p : XHyveParams) :
    (defaultMemory p).Memory = match goAtoi p.Memory with
      | none => "256"
      | some v => if v < 256 then "256" else p.Memory := by
  unfold defaultMemory
  repeat' split
  all_goals rfl

theorem defaultMemory_PCISlots (p : XHyveParams) :
    (defaultMemory p).PCISlots = p.PCISlots := by
  unfold defaultMemory
  repeat' split
  all_goals rfl

theorem defaultMemory_LPCDevs (p : XHyveParams) :
    (defaultMemory p).LPCDevs = p.LPCDevs := by
  unfold defaultMemory
  repeat' split
  all_goals rfl

theorem defaultMemory_UUID (p : XHyveParams) :
    (defaultMemory p).UUID = p.UUID := by
  unfold defaultMemory
  repeat' split
  all_goals rfl

theorem defaultMemory_ACPI (p : XHyveParams) :
    (defaultMemory p).ACPI = p.ACPI := by
  unfold defaultMemory
  repeat' split
  all_goals rfl

theorem defaultMemory_MPTGen (p : XHyveParams) :
    (defaultMemory p).MPTGen = p.MPTGen := by
  unfold defaultMemory
  repeat' split
  all_goals rfl

theorem defaultPCISlots_Nvcpus (p : XHyveParams) :
    (defaultPCISlots p).Nvcpus = p.Nvcpus := by
  unfold defaultPCISlots
  repeat' split
  all_goals rfl

theorem defaultPCISlots_Memory (p : XHyveParams) :
    (defaultPCISlots p).Memory = p.Memory := by
  unfold defaultPCISlots
  repeat' split
  all_goals rfl

theorem defaultPCISlots_PCISlots (p : XHyveParams) :
    (defaultPCISlots p).PCISlots = if p.PCISlots = [] then ["2:0,virtio-net", "0:0,hostbridge", "31,lpc"] else p.PCISlots := by
  unfold defaultPCISlots
  repeat' split
  all_goals rfl

theorem defaultPCISlots_LPCDevs (p : XHyveParams) :
    (defaultPCISlots p).LPCDevs = p.LPCDevs := by
  unfold defaultPCISlots
  repeat' split
  all_goals rfl

theorem defaultPCISlots_UUID (p : XHyveParams) :
    (defaultPCISlots p).UUID = p.UUID := by
  unfold defaultPCISlots
  repeat' split
  all_goals rfl

theorem defaultPCISlots_ACPI (p : XHyveParams) :
    (defaultPCISlots p).ACPI = p.ACPI := by
  unfold defaultPCISlots
  repeat' split
  all_goals rfl

theorem defaultPCISlots_MPTGen (p : XHyveParams) :
    (defaultPCISlots p).MPTGen = p.MPTGen := by
  unfold defaultPCISlots
  repeat' split
  all_goals rfl

theorem defaultLPCDevs_Nvcpus (p : XHyveParams) :
    (defaultLPCDevs p).Nvcpus = p.Nvcpus := by
  unfold defaultLPCDevs
  repeat' split
  all_goals rfl

theorem defaultLPCDevs_Memory (p : XHyveParams) :
    (defaultLPCDevs p).Memory = p.Memory := by
  unfold defaultLPCDevs
  repeat' split
  all_goals rfl

theorem defaultLPCDevs_PCISlots (p : XHyveParams) :
    (defaultLPCDevs p).PCISlots = p.PCISlots := by
  unfold defaultLPCDevs
  repeat' split
  all_goals rfl

theorem defaultLPCDevs_LPCDevs (p : XHyveParams) :
    (defaultLPCDevs p).LPCDevs = if p.LPCDevs = [] then ["com1", "stdio"] else p.LPCDevs := by
  unfold defaultLPCDevs
  repeat' split
  all_goals rfl

theorem defaultLPCDevs_UUID (p : XHyveParams) :
    (defaultLPCDevs p).UUID = p.UUID := by
  unfold defaultLPCDevs
  repeat' split
  all_goals rfl

theorem defaultLPCDevs_ACPI (p : XHyveParams) :
    (defaultLPCDevs p).ACPI = p.ACPI := by
  unfold defaultLPCDevs
  repeat' split
  all_goals rfl

theorem defaultLPCDevs_MPTGen (p : XHyveParams) :
    (defaultLPCDevs p).MPTGen = p.MPTGen := by
  unfold defaultLPCDevs
  repeat' split
  all_goals rfl

theorem defaultUUID_Nvcpus (s : Nat) (p : XHyveParams) :
    (defaultUUID s p).Nvcpus = p.Nvcpus := by
  unfold defaultUUID
  repeat' split
  all_goals rfl

theorem defaultUUID_Memory (s : Nat) (p : XHyveParams) :
    (defaultUUID s p).Memory = p.Memory := by
  unfold defaultUUID
  repeat' split
  all_goals rfl

theorem defaultUUID_PCISlots (s : Nat) (p : XHyveParams) :
    (defaultUUID s p).PCISlots = p.PCISlots := by
  unfold defaultUUID
  repeat' split
  all_goals rfl

theorem defaultUUID_LPCDevs (s : Nat) (p : XHyveParams) :
    (defaultUUID s p).LPCDevs = p.LPCDevs := by
  unfold defaultUUID
  repeat' split
  all_goals rfl

theorem defaultUUID_UUID (s : Nat) (p : XHyveParams) :
    (defaultUUID s p).UUID = if p.UUID = "" then uuidV4String s else p.UUID := by
  unfold defaultUUID
  repeat' split
  all_goals rfl

theorem defaultUUID_ACPI (s : Nat) (p : XHyveParams) :
    (defaultUUID s p).ACPI = p.ACPI := by
  unfold defaultUUID
  repeat' split
  all_goals rfl

theorem defaultUUID_MPTGen (s : Nat) (p : XHyveParams) :
    (defaultUUID s p).MPTGen = p.MPTGen := by
  unfold defaultUUID
  repeat' split
  all_goals rfl

theorem setDefaults_Nvcpus (s : Nat) (p : XHyveParams) :
    (setDefaults s p).Nvcpus = if p.Nvcpus < 1 then 1 else p.Nvcpus := by
  unfold setDefaults
  rw [defaultUUID_Nvcpus, defaultLPCDevs_Nvcpus, defaultPCISlots_Nvcpus, defaultMemory_Nvcpus, defaultNvcpus_Nvcpus]

theorem setDefaults_Memory (s : Nat) (p : XHyveParams) :
    (setDefaults s p).Memory =
      match goAtoi p.Memory with
      | none => "256"
      | some v => if v < 256 then "256" else p.Memory := by
  unfold setDefaults
  rw [defaultUUID_Memory, defaultLPCDevs_Memory, defaultPCISlots_Memory, defaultMemory_Memory, defaultNvcpus_Memory]

theorem setDefaults_PCISlots (s : Nat) (p : XHyveParams) :
    (setDefaults s p).PCISlots =
      if p.PCISlots = [] then ["2:0,virtio-net", "0:0,hostbridge", "31,lpc"]
      else p.PCISlots := by
  unfold setDefaults
  rw [defaultUUID_PCISlots, defaultLPCDevs_PCISlots, defaultPCISlots_PCISlots, defaultMemory_PCISlots, defaultNvcpus_PCISlots]

theorem setDefaults_LPCDevs (s : Nat) (p : XHyveParams) :
    (setDefaults s p).LPCDevs =
      if p.LPCDevs = [] then ["com1", "stdio"] else p.LPCDevs := by
  unfold setDefaults
  rw [defaultUUID_LPCDevs, defaultLPCDevs_LPCDevs, defaultPCISlots_LPCDevs, defaultMemory_LPCDevs, defaultNvcpus_LPCDevs]

theorem setDefaults_UUID (s : Nat) (p : XHyveParams) :
    (setDefaults s p).UUID = if p.UUID = "" then uuidV4String s else p.UUID := by
  unfold setDefaults
  rw [defaultUUID_UUID, defaultLPCDevs_UUID, defaultPCISlots_UUID, defaultMemory_UUID, defaultNvcpus_UUID]

theorem setDefaults_ACPI (s : Nat) (p : XHyveParams) :
    (setDefaults s p).ACPI = p.ACPI := by
  unfold setDefaults
  rw [defaultUUID_ACPI, defaultLPCDevs_ACPI, defaultPCISlots_ACPI, defaultMemory_ACPI, defaultNvcpus_ACPI]

theorem setDefaults_MPTGen (s : Nat) (p : XHyveParams) :
    (setDefaults s p).MPTGen = p.MPTGen := by
  unfold setDefaults
  rw [defaultUUID_MPTGen, defaultLPCDevs_MPTGen, defaultPCISlots_MPTGen, defaultMemory_MPTGen, defaultNvcpus_MPTGen]

theorem uuidV4String_ne_empty (seed : Nat) : uuidV4String seed ≠ "" := by
  intro h
  have h2 := congrArg String.data h
  rw [uuidV4String] at h2
  simp [hexN] at h2

theorem setDefaults_of_normalized (s : Nat) (q : XHyveParams)
    (h1 : ¬ q.Nvcpus < 1)
    (hm : ∃ v, goAtoi q.Memory = some v ∧ ¬ v < 256)
    (h3 : ¬ q.PCISlots = []) (h4 : ¬ q.LPCDevs = []) (h5 : ¬ q.UUID = "") :
    setDefaults s q = q := by
  obtain ⟨v, hv, hge⟩ := hm
  unfold setDefaults defaultUUID defaultLPCDevs defaultPCISlots defaultMemory defaultNvcpus
  rw [if_neg h1, hv]
  simp only [if_neg hge, if_neg h3, if_neg h4, if_neg h5]

theorem setDefaults_Nvcpus_ge (s : Nat) (p : XHyveParams) :
    ¬ (setDefaults s p).Nvcpus < 1 := by
  rw [setDefaults_Nvcpus]
  split <;> omega

theorem goAtoi_256 : goAtoi "256" = some 256 := by decide

theorem setDefaults_Memory_ge (s : Nat) (p : XHyveParams) :
    ∃ v, goAtoi ((setDefaults s p).Memory) = some v ∧ ¬ v < 256 := by
  rw [setDefaults_Memory]
  cases hv : goAtoi p.Memory with
  | none => exact ⟨256, goAtoi_256, by omega⟩
  | some v =>
    by_cases h : v < 256
    · simp only [if_pos h]
      exact ⟨256, goAtoi_256, by omega⟩
    · simp only [if_neg h]
      exact ⟨v, hv, h⟩

theorem setDefaults_PCISlots_ne (s : Nat) (p : XHyveParams) :
    ¬ (setDefaults s p).PCISlots = [] := by
  rw [setDefaults_PCISlots]
  split <;> simp_all

theorem setDefaults_LPCDevs_ne (s : Nat) (p : XHyveParams) :
    ¬ (setDefaults s p).LPCDevs = [] := by
  rw [setDefaults_LPCDevs]
  split <;> simp_all

theorem setDefaults_UUID_ne (s : Nat) (p : XHyveParams) :
    ¬ (setDefaults s p).UUID = "" := by
  rw [setDefaults_UUID]
  split
  · exact uuidV4String_ne_empty s
  · assumption

theorem stage6_call {c : Call} (h : stageOfCall c = 6) : c = Call.numVcpusAllowed := by
  cases c <;> simp_all [stageOfCall]

theorem stage12_call {c : Call} (h : stageOfCall c = 12) : c = Call.smbiosBuild := by
  cases c <;> simp_all [stageOfCall]

theorem RunXHyve_result (b : Backend) (seed : Nat) (p : XHyveParams) :
    (RunXHyve b seed p).result = seqRes (stagedSteps b (setDefaults seed p)) := rfl

theorem RunXHyve_trace (b : Backend) (seed : Nat) (p : XHyveParams) :
    (RunXHyve b seed p).trace = seqTr (stagedSteps b (setDefaults seed p)) := rfl

/-- C1: for every backend and parameter model, if `RunXHyve` returns a stage's
classified error then that stage is the first failing one: some backend call
of exactly that stage reported failure, every backend call made belongs to a
stage at or before it (so no call of any stage after the failing one is ever
made), no traced call of any strictly earlier stage reported failure, and
every strictly earlier pipeline step succeeded with all of its calls traced;
a run returning nil made no failing call at all. -/
theorem c1_fail_fast (b : Backend) (seed : Nat) (p : XHyveParams) :
    (∀ e, (RunXHyve b seed p).result = some e →
      (∀ c ∈ (RunXHyve b seed p).trace, stageOfCall c ≤ stageOfErr e) ∧
      (∃ c ∈ (RunXHyve b seed p).trace,
        stageOfCall c = stageOfErr e ∧ callFails b (setDefaults seed p).Nvcpus c) ∧
      (∀ c ∈ (RunXHyve b seed p).trace, stageOfCall c < stageOfErr e →
        ¬ callFails b (setDefaults seed p).Nvcpus c) ∧
      (∀ q ∈ stagedSteps b (setDefaults seed p), q.1 < stageOfErr e →
        q.2.1 = none ∧ ∀ c ∈ q.2.2, c ∈ (RunXHyve b seed p).trace)) ∧
    ((RunXHyve b seed p).result = none →
      ∀ c ∈ (RunXHyve b seed p).trace, ¬ callFails b (setDefaults seed p).Nvcpus c) := by
  have hok := stagedSteps_ok b (setDefaults seed p)
  have h := runSeqSound b (setDefaults seed p).Nvcpus (stagedSteps b (setDefaults seed p))
    hok (stagedSteps_pairwise b (setDefaults seed p))
  simp only [RunXHyve_result, RunXHyve_trace]
  refine ⟨fun e he => ?_, fun hn => (h.2.2 hn).1⟩
  obtain ⟨_, hbound, hfail, hearly⟩ := h.2.1 e he
  refine ⟨hbound, hfail, ?_, hearly⟩
  intro c hc hlt
  obtain ⟨q, hq, hcq, hst⟩ := h.1 c hc
  have hq1 : q.1 < stageOfErr e := hst ▸ hlt
  exact (hok q hq).2.2 (hearly q hq hq1).1 c hcq

theorem c1_fail_fast_witness :
    (∀ c ∈ (RunXHyve bMsrFail 0 pC1).trace,
      stageOfCall c ≤ stageOfErr XhyveError.ErrInitializingMSR) ∧
    (∃ c ∈ (RunXHyve bMsrFail 0 pC1).trace,
      stageOfCall c = stageOfErr XhyveError.ErrInitializingMSR ∧
      callFails bMsrFail (setDefaults 0 pC1).Nvcpus c) ∧
    (∀ c ∈ (RunXHyve bMsrFail 0 pC1).trace,
      stageOfCall c < stageOfErr XhyveError.ErrInitializingMSR →
      ¬ callFails bMsrFail (setDefaults 0 pC1).Nvcpus c) := by
  have h := (c1_fail_fast bMsrFail 0 pC1).1 XhyveError.ErrInitializingMSR (by decide)
  exact ⟨h.1, h.2.1, h.2.2.1⟩

/-- C2 (amended): the vCPU limit check fails exactly when the 32-bit C-int
truncation of the defaulted vCPU count strictly exceeds the backend-reported
maximum — `xhyve.go:118` compares `C.int(p.Nvcpus) > maxVCPUs`, so the count
is truncated before comparing, and a (truncated) count equal to the maximum
passes; on that failure VM creation had already been made and succeeded and
the stage-7 memory-mapping call is never made; and whenever stages 1-5 all
succeed and the truncated count exceeds the limit, `RunXHyve` returns the
vCPU-limit-exceeded error. -/
theorem c2_vcpu_limit (b : Backend) (seed : Nat) (p : XHyveParams) :
    ((RunXHyve b seed p).result = some XhyveError.ErrMaxNumVCPUExceeded →
      Call.vmCreate ∈ (RunXHyve b seed p).trace ∧ b.xh_vm_create = 0 ∧
      cInt (setDefaults seed p).Nvcpus > b.num_vcpus_allowed ∧
      ∀ m, Call.vmSetupMemory m ∉ (RunXHyve b seed p).trace) ∧
    (cInt (setDefaults seed p).Nvcpus ≤ b.num_vcpus_allowed →
      (RunXHyve b seed p).result ≠ some XhyveError.ErrMaxNumVCPUExceeded) ∧
    ((pciLoop b (setDefaults seed p).PCISlots).1 = true →
      (lpcLoop b (setDefaults seed p).LPCDevs).1 = true →
      (b.parse_memsize (setDefaults seed p).Memory).1 = 0 →
      b.firmware_parse (setDefaults seed p).BootParams = 0 →
      b.xh_vm_create = 0 →
      cInt (setDefaults seed p).Nvcpus > b.num_vcpus_allowed →
      (RunXHyve b seed p).result = some XhyveError.ErrMaxNumVCPUExceeded) := by
  have h := runSeqSound b (setDefaults seed p).Nvcpus (stagedSteps b (setDefaults seed p))
    (stagedSteps_ok b (setDefaults seed p)) (stagedSteps_pairwise b (setDefaults seed p))
  simp only [RunXHyve_result, RunXHyve_trace]
  refine ⟨?_, ?_, ?_⟩
  · intro he
    obtain ⟨_, hbound, ⟨cf, hcf, hcfst, hcff⟩, hearly⟩ := h.2.1 _ he
    have hcf6 : cf = Call.numVcpusAllowed := stage6_call hcfst
    subst hcf6
    have hnv : cInt (setDefaults seed p).Nvcpus > b.num_vcpus_allowed := hcff
    have hcreate := hearly (5, createStage b) (by simp [stagedSteps])
      (by norm_num [stageOfErr])
    refine ⟨hcreate.2 Call.vmCreate (by simp [createStage]), ?_, hnv, ?_⟩
    · by_contra hc
      have := hcreate.1
      simp [createStage, hc] at this
    · intro m hm
      have := hbound _ hm
      simp [stageOfCall, stageOfErr] at this
  · intro hle he
    obtain ⟨_, _, ⟨cf, hcf, hcfst, hcff⟩, _⟩ := h.2.1 _ he
    have hcf6 : cf = Call.numVcpusAllowed := stage6_call hcfst
    subst hcf6
    have hgt : cInt (setDefaults seed p).Nvcpus > b.num_vcpus_allowed := hcff
    omega
  · intro h1 h2 h3 h4 h5 h6
    unfold seqRes stagedSteps
    simp [runSeq, pciStage, lpcStage, memsizeStage, firmwareStage, createStage,
      vcpuLimitStage, h1, h2, h3, h4, h5, h6]

theorem c2_vcpu_limit_witness :
    (RunXHyve bAllOk 0 pC2).result = some XhyveError.ErrMaxNumVCPUExceeded ∧
    Call.vmCreate ∈ (RunXHyve bAllOk 0 pC2).trace ∧
    ∀ m, Call.vmSetupMemory m ∉ (RunXHyve bAllOk 0 pC2).trace := by
  have h := c2_vcpu_limit bAllOk 0 pC2
  have hres := h.2.2 (by decide) (by decide) (by decide) (by decide) (by decide) (by decide)
  obtain ⟨hin, _, _, hno⟩ := h.1 hres
  exact ⟨hres, hin, hno⟩

/-- C2 counterexample: on `pBig` (2^31 requested vCPUs) against a backend
reporting a maximum of 32, the requested count strictly exceeds the maximum,
yet the check passes: `C.int(p.Nvcpus)` at `xhyve.go:118` truncates 2^31 to
-2^31 ≤ 32, the run never returns the vCPU-limit-exceeded error, and the
stage-7 memory-mapping call is made — refuting the claim's
"fails if and only if the requested count exceeds the maximum". -/
theorem c2_vcpu_limit_cex :
    (setDefaults 0 pBig).Nvcpus > bAllOk.num_vcpus_allowed ∧
    (RunXHyve bAllOk 0 pBig).result ≠ some XhyveError.ErrMaxNumVCPUExceeded ∧
    Call.vmSetupMemory 1024 ∈ (RunXHyve bAllOk 0 pBig).trace := by decide

/-- C3: the claim says the argument of the stage-8 RTC initialization call
reflects the parameter model's UTC boolean, but `xhyve.go:135` passes the
constant `0` (`C.rtc_init(C.int(0))`) and never reads `p.UTC`: on the
parameters `pC3`, which request `UTC = true`, the only `rtc_init` call in the
run's trace still carries the argument 0. -/
theorem c3_rtc_ignores_utc :
    pC3.UTC = true ∧
    (RunXHyve bAllOk 0 pC3).trace.filter isRtcCall = [Call.rtcInit 0] := by
  exact ⟨rfl, by decide⟩

/-- C4: the defaulting stage turns every non-positive requested vCPU count
into 1 and leaves every count that is at least 1 unchanged. -/
theorem c4_vcpu_default (seed : Nat) (p : XHyveParams) :
    (p.Nvcpus ≤ 0 → (setDefaults seed p).Nvcpus = 1) ∧
    (1 ≤ p.Nvcpus → (setDefaults seed p).Nvcpus = p.Nvcpus) := by
  constructor <;> intro h
  · rw [setDefaults_Nvcpus, if_pos (by omega)]
  · rw [setDefaults_Nvcpus, if_neg (by omega)]

theorem c4_vcpu_default_witness :
    (setDefaults 0 pC4a).Nvcpus = 1 ∧ (setDefaults 0 pC4b).Nvcpus = pC4b.Nvcpus :=
  ⟨(c4_vcpu_default 0 pC4a).1 (by decide), (c4_vcpu_default 0 pC4b).2 (by decide)⟩

/-- C5: when the memory-size string fails to parse under Go `strconv.Atoi`
semantics or parses below 256, the defaulting stage replaces it by the string
"256", on which the (spec-modelled) backend memory-size parser succeeds;
strings parsing to at least 256 are left unchanged. -/
theorem c5_memory_default (seed : Nat) (p : XHyveParams) :
    ((goAtoi p.Memory = none ∨ ∃ v, goAtoi p.Memory = some v ∧ v < 256) →
      (setDefaults seed p).Memory = "256" ∧
      (parse_memsize_spec ((setDefaults seed p).Memory)).isSome = true) ∧
    (∀ v, goAtoi p.Memory = some v → 256 ≤ v →
      (setDefaults seed p).Memory = p.Memory) := by
  constructor
  · intro h
    have hM : (setDefaults seed p).Memory = "256" := by
      rw [setDefaults_Memory]
      rcases h with h | ⟨v, hv, hlt⟩
      · rw [h]
      · rw [hv]
        simp [hlt]
    refine ⟨hM, ?_⟩
    rw [hM]
    decide
  · intro v hv hge
    rw [setDefaults_Memory, hv]
    simp
    omega

theorem c5_memory_default_witness :
    (setDefaults 0 pC5a).Memory = "256" ∧
    (parse_memsize_spec ((setDefaults 0 pC5a).Memory)).isSome = true ∧
    (setDefaults 0 pC5b).Memory = pC5b.Memory := by
  have h1 := (c5_memory_default 0 pC5a).1 (Or.inl (by decide))
  have h2 := (c5_memory_default 0 pC5b).2 1024 (by decide) (by decide)
  exact ⟨h1.1, h1.2, h2⟩

/-- C6: the defaulting stage replaces an empty PCI slot list by exactly the
three-entry default topology (virtio network device, host bridge, LPC bridge
at slot 31) and an empty LPC device list by exactly the two entries com1 and
stdio, leaving nonempty lists unchanged. -/
theorem c6_topology_default (seed : Nat) (p : XHyveParams) :
    (p.PCISlots = [] →
      (setDefaults seed p).PCISlots = ["2:0,virtio-net", "0:0,hostbridge", "31,lpc"]) ∧
    (p.PCISlots ≠ [] → (setDefaults seed p).PCISlots = p.PCISlots) ∧
    (p.LPCDevs = [] → (setDefaults seed p).LPCDevs = ["com1", "stdio"]) ∧
    (p.LPCDevs ≠ [] → (setDefaults seed p).LPCDevs = p.LPCDevs) := by
  refine ⟨fun h => ?_, fun h => ?_, fun h => ?_, fun h => ?_⟩
  · rw [setDefaults_PCISlots, if_pos h]
  · rw [setDefaults_PCISlots, if_neg h]
  · rw [setDefaults_LPCDevs, if_pos h]
  · rw [setDefaults_LPCDevs, if_neg h]

theorem c6_topology_default_witness :
    (setDefaults 0 pC6).PCISlots = ["2:0,virtio-net", "0:0,hostbridge", "31,lpc"] ∧
    (setDefaults 0 pC6).LPCDevs = ["com1", "stdio"] ∧
    (setDefaults 0 pC4b).PCISlots = pC4b.PCISlots :=
  ⟨(c6_topology_default 0 pC6).1 rfl, (c6_topology_default 0 pC6).2.2.1 rfl,
   (c6_topology_default 0 pC4b).2.1 (by decide)⟩

/-- C7: the stage-to-error classification is injective over the closed
twelve-kind error type (no two stages return the same error value), and every
failing run's returned error is witnessed by a failing backend call of exactly
the stage that classification assigns to it. -/
theorem c7_error_classifier (b : Backend) (seed : Nat) (p : XHyveParams) :
    Function.Injective stageOfErr ∧
    ∀ e, (RunXHyve b seed p).result = some e →
      ∃ c ∈ (RunXHyve b seed p).trace,
        stageOfCall c = stageOfErr e ∧ callFails b (setDefaults seed p).Nvcpus c := by
  have h := runSeqSound b (setDefaults seed p).Nvcpus (stagedSteps b (setDefaults seed p))
    (stagedSteps_ok b (setDefaults seed p)) (stagedSteps_pairwise b (setDefaults seed p))
  simp only [RunXHyve_result, RunXHyve_trace]
  exact ⟨by decide, fun e he => (h.2.1 e he).2.2.1⟩

theorem c7_error_classifier_witness :
    ∃ c ∈ (RunXHyve bFwFail 0 pC7).trace,
      stageOfCall c = stageOfErr XhyveError.ErrInvalidBootParams ∧
      callFails bFwFail (setDefaults 0 pC7).Nvcpus c :=
  (c7_error_classifier bFwFail 0 pC7).2 XhyveError.ErrInvalidBootParams (by decide)

/-- C8 (amended): a successful run always made the SMBIOS construction call,
made the MP-table construction call exactly when `MPTGen` is set and the ACPI
construction call exactly when `ACPI` is set — both sized with the 32-bit
C-int truncation of the defaulted vCPU count, since `xhyve.go:147` and
`xhyve.go:157` pass `C.int(p.Nvcpus)` — and reached the dispatch handoff;
moreover any run failing at SMBIOS or ACPI construction had made the SMBIOS
call as well. -/
theorem c8_table_stages (b : Backend) (seed : Nat) (p : XHyveParams) :
    ((RunXHyve b seed p).result = none →
      Call.smbiosBuild ∈ (RunXHyve b seed p).trace ∧
      Call.meventDispatch ∈ (RunXHyve b seed p).trace ∧
      (Call.mptableBuild (cInt (setDefaults seed p).Nvcpus) ∈ (RunXHyve b seed p).trace ↔
        p.MPTGen = true) ∧
      (Call.acpiBuild (cInt (setDefaults seed p).Nvcpus) ∈ (RunXHyve b seed p).trace ↔
        p.ACPI = true)) ∧
    (((RunXHyve b seed p).result = some XhyveError.ErrBuildingSMBIOS ∨
      (RunXHyve b seed p).result = some XhyveError.ErrBuildingACPI) →
      Call.smbiosBuild ∈ (RunXHyve b seed p).trace) := by
  have h := runSeqSound b (setDefaults seed p).Nvcpus (stagedSteps b (setDefaults seed p))
    (stagedSteps_ok b (setDefaults seed p)) (stagedSteps_pairwise b (setDefaults seed p))
  simp only [RunXHyve_result, RunXHyve_trace]
  constructor
  · intro hn
    obtain ⟨hnf, hall⟩ := h.2.2 hn
    refine ⟨?_, ?_, ?_, ?_⟩
    · exact (hall (12, smbiosStage b) (by simp [stagedSteps])).2 _ (by simp [smbiosStage])
    · exact (hall (15, dispatchStage) (by simp [stagedSteps])).2 _ (by simp [dispatchStage])
    · constructor
      · intro hm
        obtain ⟨q, hq, hcq, hst⟩ := h.1 _ hm
        simp only [stagedSteps, List.mem_cons, List.not_mem_nil, or_false] at hq
        rcases hq with rfl | rfl | rfl | rfl | rfl | rfl | rfl | rfl | rfl | rfl | rfl |
          rfl | rfl | rfl | rfl | rfl
        all_goals try (simp only [stageOfCall] at hst; omega)
        by_cases hMPT : (setDefaults seed p).MPTGen = true
        · rw [← setDefaults_MPTGen seed p]
          exact hMPT
        · have hf : (setDefaults seed p).MPTGen = false := by simpa using hMPT
          rw [hf] at hcq
          simp [mptableStage] at hcq
      · intro hflag
        have hMPT : (setDefaults seed p).MPTGen = true := by
          rw [setDefaults_MPTGen]
          exact hflag
        have hsub := (hall
          (11, mptableStage b (setDefaults seed p).MPTGen (setDefaults seed p).Nvcpus)
          (by simp [stagedSteps])).2
        rw [hMPT] at hsub
        exact hsub _ (by simp [mptableStage])
    · constructor
      · intro hm
        obtain ⟨q, hq, hcq, hst⟩ := h.1 _ hm
        simp only [stagedSteps, List.mem_cons, List.not_mem_nil, or_false] at hq
        rcases hq with rfl | rfl | rfl | rfl | rfl | rfl | rfl | rfl | rfl | rfl | rfl |
          rfl | rfl | rfl | rfl | rfl
        all_goals try (simp only [stageOfCall] at hst; omega)
        by_cases hA : (setDefaults seed p).ACPI = true
        · rw [← setDefaults_ACPI seed p]
          exact hA
        · have hf : (setDefaults seed p).ACPI = false := by simpa using hA
          rw [hf] at hcq
          simp [acpiStage] at hcq
      · intro hflag
        have hA : (setDefaults seed p).ACPI = true := by
          rw [setDefaults_ACPI]
          exact hflag
        have hsub := (hall
          (13, acpiStage b (setDefaults seed p).ACPI (setDefaults seed p).Nvcpus)
          (by simp [stagedSteps])).2
        rw [hA] at hsub
        exact hsub _ (by simp [acpiStage])
  · intro hor
    rcases hor with he | he
    · obtain ⟨_, _, ⟨cf, hcf, hcfst, _⟩, _⟩ := h.2.1 _ he
      have h12 : cf = Call.smbiosBuild := stage12_call hcfst
      subst h12
      exact hcf
    · obtain ⟨_, _, _, hearly⟩ := h.2.1 _ he
      have hsm := hearly (12, smbiosStage b) (by simp [stagedSteps])
        (by norm_num [stageOfErr])
      exact hsm.2 _ (by simp [smbiosStage])

theorem c8_table_stages_witness :
    Call.smbiosBuild ∈ (RunXHyve bAllOk 0 pC8).trace ∧
    Call.meventDispatch ∈ (RunXHyve bAllOk 0 pC8).trace ∧
    Call.mptableBuild (cInt (setDefaults 0 pC8).Nvcpus) ∉ (RunXHyve bAllOk 0 pC8).trace ∧
    Call.acpiBuild (cInt (setDefaults 0 pC8).Nvcpus) ∉ (RunXHyve bAllOk 0 pC8).trace := by
  have h := (c8_table_stages bAllOk 0 pC8).1 (by decide)
  refine ⟨h.1, h.2.1, fun hm => ?_, fun hm => ?_⟩
  · have := h.2.2.1.mp hm
    simp [pC8] at this
  · have := h.2.2.2.mp hm
    simp [pC8] at this

/-- C8 counterexample: on `pBigT` (2^31 requested vCPUs, both table flags on)
the run succeeds and both optional table-construction calls are made, but
their argument is the truncated `C.int` value -2^31, not the model's
vcpuCount: no MP-table or ACPI call sized with the (defaulted) vcpuCount
appears in the trace, refuting the claim's "both sized with vcpuCount". -/
theorem c8_table_stages_cex :
    pBigT.MPTGen = true ∧ pBigT.ACPI = true ∧
    (RunXHyve bAllOk 0 pBigT).result = none ∧
    Call.mptableBuild (setDefaults 0 pBigT).Nvcpus ∉ (RunXHyve bAllOk 0 pBigT).trace ∧
    Call.acpiBuild (setDefaults 0 pBigT).Nvcpus ∉ (RunXHyve bAllOk 0 pBigT).trace ∧
    Call.mptableBuild (cInt (setDefaults 0 pBigT).Nvcpus) ∈ (RunXHyve bAllOk 0 pBigT).trace ∧
    Call.acpiBuild (cInt (setDefaults 0 pBigT).Nvcpus) ∈ (RunXHyve bAllOk 0 pBigT).trace := by
  decide

/-- C9: `RunXHyve` receives its parameter struct by value, so a whole Boot
call leaves the caller's struct exactly as it was, while the defaulting
mutations act on the callee's local copy only (whose final state is
`setDefaults` of the input). -/
theorem c9_by_value (b : Backend) (seed : Nat) (p : XHyveParams) :
    (bootCall b seed p).2 = p ∧
    (bootCall b seed p).1.finalParams = setDefaults seed p :=
  ⟨rfl, rfl⟩

/-- C10: the defaulting stage is idempotent: a second application (with any
fresh UUID seed) changes no field of an already-defaulted parameter model. -/
theorem c10_setDefaults_idem (s1 s2 : Nat) (p : XHyveParams) :
    setDefaults s2 (setDefaults s1 p) = setDefaults s1 p :=
  setDefaults_of_normalized s2 (setDefaults s1 p)
    (setDefaults_Nvcpus_ge s1 p) (setDefaults_Memory_ge s1 p)
    (setDefaults_PCISlots_ne s1 p) (setDefaults_LPCDevs_ne s1 p)
    (setDefaults_UUID_ne s1 p)
